import Mathlib

/-!
Verification of `Scripts/zst_to_csv_with_score_filtering_json.py`.

The script defines one function, `process_pushshift_zst`, which
streams a zstd-compressed newline-delimited JSON archive, reassembles
decompressed chunks into lines, filters records by subreddit, score and
body length, and writes one normalized JSON object per accepted record.

The embedding below models the decompressed byte stream as a list of
chunks (each a list of byte values), the JSON parser as an abstract
function from line bytes to an optional parsed post, and the file system
effects (input existence, prior output-file content) as explicit
parameters.
-/

namespace PushshiftFilter

/-- The newline byte, the separator used by `buffer.split(b'\n')`. -/
def NL : Nat := 10

/-- ASCII whitespace bytes, as stripped by Python `bytes.strip()`
(space, tab, newline, carriage return, vertical tab, form feed). -/
def isWsByte (b : Nat) : Bool :=
  b = 32 || b = 9 || b = 10 || b = 13 || b = 11 || b = 12

/-- `not line.strip()` for a byte string: true iff every byte is ASCII
whitespace (equivalently, `line.strip()` is empty). -/
def lineIsBlank (line : List Nat) : Bool :=
  line.all isWsByte

/-- `bs.split(b'\n')`: split a byte string on the newline byte.  The
result is always non-empty; segments contain no newline byte. -/
def splitNL : List Nat → List (List Nat)
  | [] => [[]]
  | b :: bs =>
    if b = NL then [] :: splitNL bs
    else (b :: (splitNL bs).headI) :: (splitNL bs).tail

/-- A parsed JSON post, restricted to the fields the script reads.
Each field is optional: `none` models an absent key.  `title.isSome`
models the `'title' in post` membership test. -/
structure Post where
  subreddit : Option String := none
  score : Option Int := none
  body : Option String := none
  title : Option String := none
  selftext : Option String := none
deriving DecidableEq, Repr

/-- The output shape: a single-key object `{"body": ...}`. -/
structure OutputRecord where
  body : String
deriving DecidableEq, Repr

/-- Python `str.isspace` on the ASCII range: space, tab, newline,
carriage return, vertical tab, form feed.  (Python also strips a
handful of non-ASCII Unicode space characters; records in this archive
are ASCII-delimited, so that refinement is not modelled.) -/
def isPySpace (c : Char) : Bool :=
  c.toNat = 32 || c.toNat = 9 || c.toNat = 10 || c.toNat = 13
    || c.toNat = 11 || c.toNat = 12

/-- Python `s.strip()`: remove leading and trailing whitespace. -/
def pyStrip (s : String) : String :=
  String.mk (((s.data.dropWhile isPySpace).reverse.dropWhile isPySpace).reverse)

/-- The `result['body']` construction: for submissions (a `title` key is
present) the trimmed title, one space, and the trimmed selftext; for
comments the trimmed `body` field. -/
def resultBody (post : Post) : String :=
  if post.title.isSome then
    pyStrip (post.title.getD "") ++ " " ++ pyStrip (post.selftext.getD "")
  else
    pyStrip (post.body.getD "")

/-- The filtering and normalization applied to one successfully parsed
post: skip unless `subreddit` equals the filter, unless `score`
(default 0) is strictly above the threshold, and unless the trimmed
`body` (default empty) has length at least 120; otherwise emit the
normalized record. -/
def filterNormalize (subreddit_filter : String) (score_threshold : Int)
    (post : Post) : Option OutputRecord :=
  if post.subreddit ≠ some subreddit_filter then none
  else if post.score.getD 0 ≤ score_threshold then none
  else if (pyStrip (post.body.getD "")).length < 120 then none
  else some ⟨resultBody post⟩

/-- Per-line processing: skip blank lines, skip lines the JSON parser
rejects (`json.JSONDecodeError` is caught and swallowed), otherwise
filter and normalize the parsed post.  The parser itself is an abstract
parameter `parse`; `parse line = none` models a parse failure. -/
def processLine (parse : List Nat → Option Post)
    (subreddit_filter : String) (score_threshold : Int)
    (line : List Nat) : Option OutputRecord :=
  if lineIsBlank line then none
  else
    match parse line with
    | none => none
    | some post => filterNormalize subreddit_filter score_threshold post

/-- The chunk-reassembly loop, producing only the lines: append each
chunk to the pending buffer, split on newlines, keep the last (possibly
incomplete) segment as the new buffer, and yield the preceding segments.
A zero-length read ends the loop; the final buffer is dropped. -/
def streamLines (buffer : List Nat) : List (List Nat) → List (List Nat)
  | [] => []
  | c :: cs =>
    if c = [] then []
    else
      let parts := splitNL (buffer ++ c)
      parts.dropLast ++ streamLines (parts.getLastD []) cs

/-- The main loop as written: each chunk's complete lines are filtered,
normalized and written before the next chunk is read. -/
def runLoop (parse : List Nat → Option Post)
    (subreddit_filter : String) (score_threshold : Int)
    (buffer : List Nat) : List (List Nat) → List OutputRecord
  | [] => []
  | c :: cs =>
    if c = [] then []
    else
      let parts := splitNL (buffer ++ c)
      parts.dropLast.filterMap (processLine parse subreddit_filter score_threshold)
        ++ runLoop parse subreddit_filter score_threshold (parts.getLastD []) cs

/-- One hexadecimal digit (lowercase), as used by JSON escapes. -/
def hexDigit (n : Nat) : Char :=
  if n < 10 then Char.ofNat (48 + n) else Char.ofNat (87 + n)

/-- Four-digit lowercase hexadecimal rendering of `n % 0x10000`. -/
def hex4 (n : Nat) : String :=
  String.mk [hexDigit (n / 4096 % 16), hexDigit (n / 256 % 16),
             hexDigit (n / 16 % 16), hexDigit (n % 16)]

/-- Models Python `json.dumps` escaping of one character with the
default `ensure_ascii=True`: short escapes for the common control
characters, backslash and quote; `\uXXXX` (with surrogate pairs beyond
the BMP) for other control or non-ASCII characters. -/
def jsonEscapeChar (c : Char) : String :=
  if c = Char.ofNat 34 then String.mk [Char.ofNat 92, Char.ofNat 34]
  else if c = Char.ofNat 92 then String.mk [Char.ofNat 92, Char.ofNat 92]
  else if c = Char.ofNat 10 then String.mk [Char.ofNat 92, Char.ofNat 110]
  else if c = Char.ofNat 13 then String.mk [Char.ofNat 92, Char.ofNat 114]
  else if c = Char.ofNat 9 then String.mk [Char.ofNat 92, Char.ofNat 116]
  else if c = Char.ofNat 8 then String.mk [Char.ofNat 92, Char.ofNat 98]
  else if c = Char.ofNat 12 then String.mk [Char.ofNat 92, Char.ofNat 102]
  else if c.toNat < 32 || 126 < c.toNat then
    if c.toNat < 65536 then String.mk [Char.ofNat 92, Char.ofNat 117] ++ hex4 c.toNat
    else
      String.mk [Char.ofNat 92, Char.ofNat 117] ++ hex4 (55296 + (c.toNat - 65536) / 1024)
        ++ String.mk [Char.ofNat 92, Char.ofNat 117] ++ hex4 (56320 + (c.toNat - 65536) % 1024)
  else String.singleton c

/-- Models `json.dumps(result)` for the single-key object
`result = \x7b'body': s\x7d` with default separators. -/
def jsonDumpsRecord (r : OutputRecord) : String :=
  "\x7b\"body\": \""
    ++ (r.body.data.map jsonEscapeChar).foldr (fun a b => a ++ b) ""
    ++ "\"\x7d"

/-- The bytes written to the output file: every record serialized by
`json.dumps` followed by a newline, in emission order. -/
def serializeOutput (recs : List OutputRecord) : String :=
  (recs.map (fun r => jsonDumpsRecord r ++ "\n")).foldr (fun a b => a ++ b) ""

/-- The observable outcome of one call to `process_pushshift_zst`:
whether the not-found message was printed, the content of the output
file after the run (`none` when the file does not exist), and whether an
uncaught stream-corruption error propagated out of the call. -/
structure RunOutcome where
  errorPrinted : Bool
  finalOutput : Option String
  streamError : Bool
deriving DecidableEq, Repr

/-- `process_pushshift_zst(input_path, output_path, subreddit_filter,
score_threshold)`.  `inputIsFile` models `os.path.isfile(input_path)`;
`chunks` models the successive non-empty reads the decompressor
delivers; `streamCorrupt` models the decompressor raising a fatal error
after delivering those chunks; `prevOutput` models the prior state of
the output file.  When the input is missing the function prints the
error and returns, leaving the output file untouched; otherwise the
output file is opened with mode `w` (created or truncated) before
reading, and holds the serialized accepted records when the run ends,
whether or not a stream error then aborts the call. -/
def process_pushshift_zst (parse : List Nat → Option Post)
    (inputIsFile : Bool) (chunks : List (List Nat)) (streamCorrupt : Bool)
    (prevOutput : Option String)
    (subreddit_filter : String) (score_threshold : Int) : RunOutcome :=
  if !inputIsFile then
    { errorPrinted := true, finalOutput := prevOutput, streamError := false }
  else
    { errorPrinted := false,
      finalOutput :=
        some (serializeOutput (runLoop parse subreddit_filter score_threshold [] chunks)),
      streamError := streamCorrupt }

/-- Result of running the script from the command line: either the
usage message with `sys.exit(1)`, or a completed call to
`process_pushshift_zst`. -/
inductive MainResult where
  | usageExit (code : Nat)
  | ran (o : RunOutcome)
deriving DecidableEq, Repr

/-- The process exit status: the explicit usage-error code, 1 when an
uncaught exception terminates the interpreter, 0 otherwise. -/
def MainResult.exitCode : MainResult → Nat
  | .usageExit code => code
  | .ran o => if o.streamError then 1 else 0

/-- The `__main__` block: with exactly two user arguments, call
`process_pushshift_zst` with the compiled-in subreddit `climbharder`
and score threshold `20`; otherwise print usage and exit 1.
`isfile`, `contents`, `corrupt` and `outFiles` model the file system,
indexed by path. -/
def mainScript (parse : List Nat → Option Post)
    (isfile : String → Bool) (contents : String → List (List Nat))
    (corrupt : String → Bool) (outFiles : String → Option String)
    (argv : List String) : MainResult :=
  match argv with
  | [_, input_filename, output_filename] =>
    .ran (process_pushshift_zst parse (isfile input_filename)
      (contents input_filename) (corrupt input_filename)
      (outFiles output_filename) "climbharder" 20)
  | _ => .usageExit 1

/-! ### Concrete fixtures used to instantiate the theorems -/

/-- A 130-character body, comfortably above the 120-character gate. -/
def goodBody : String := String.mk (List.replicate 130 'x')

/-- A comment-variant post passing all three filters. -/
def goodPost : Post :=
  { subreddit := some "climbharder", score := some 25, body := some goodBody }

/-- A submission-variant post (has `title`) passing all three filters,
with a short title and selftext. -/
def subPost : Post :=
  { subreddit := some "climbharder", score := some 30, body := some goodBody,
    title := some "T", selftext := some "S" }

/-- A submission-variant post whose `body` is short but whose
`selftext` is long. -/
def shortBodySub : Post :=
  { subreddit := some "climbharder", score := some 50, body := some "short",
    title := some "T", selftext := some goodBody }

/-- A post with no `score` key at all. -/
def noScorePost : Post :=
  { subreddit := some "climbharder", body := some goodBody }

/-- A concrete parser: line `a` is `goodPost`, line `b` is `subPost`,
anything else fails to parse. -/
def testParse : List Nat → Option Post := fun l =>
  if l = [97] then some goodPost
  else if l = [98] then some subPost
  else none

/-! ### Properties of the line splitter -/

theorem splitNL_ne_nil (bs : List Nat) : splitNL bs ≠ [] := by
  cases bs with
  | nil => simp [splitNL]
  | cons b bs =>
    simp only [splitNL]
    split <;> simp

theorem getLastD_mem {α : Type} (l : List α) (d : α) (h : l ≠ []) :
    l.getLastD d ∈ l := by
  induction l generalizing d with
  | nil => exact absurd rfl h
  | cons a l ih =>
    cases l with
    | nil => simp [List.getLastD]
    | cons a' l' =>
      rw [List.getLastD_cons]
      exact List.mem_cons_of_mem a (ih a (by simp))

theorem getLastD_indep {α : Type} (l : List α) (d d' : α) (h : l ≠ []) :
    l.getLastD d = l.getLastD d' := by
  cases l with
  | nil => exact absurd rfl h
  | cons a l => rw [List.getLastD_cons, List.getLastD_cons]

theorem splitNL_cons_nl (bs : List Nat) :
    splitNL (NL :: bs) = [] :: splitNL bs := by
  simp [splitNL]

theorem splitNL_cons_of_ne (b : Nat) (bs : List Nat) (hb : b ≠ NL) :
    splitNL (b :: bs) = (b :: (splitNL bs).headI) :: (splitNL bs).tail := by
  simp [splitNL, hb]

theorem splitNL_no_nl (bs : List Nat) : ∀ p ∈ splitNL bs, NL ∉ p := by
  induction bs with
  | nil =>
    intro p hp
    simp [splitNL] at hp
    simp [hp]
  | cons b bs ih =>
    intro p hp
    obtain ⟨q, qs, hP⟩ := List.exists_cons_of_ne_nil (splitNL_ne_nil bs)
    simp only [splitNL] at hp
    split at hp
    · rcases List.mem_cons.mp hp with h | h
      · simp [h]
      · exact ih p h
    · rename_i hb
      rw [hP] at hp
      simp only [List.headI_cons, List.tail_cons] at hp
      rcases List.mem_cons.mp hp with h | h
      · subst h
        intro hmem
        rcases List.mem_cons.mp hmem with h10 | h10
        · exact hb h10.symm
        · exact ih q (hP ▸ List.mem_cons_self q qs) h10
      · exact ih p (hP ▸ List.mem_cons_of_mem q h)

theorem splitNL_of_no_nl (xs : List Nat) (h : ∀ b ∈ xs, b ≠ NL) :
    splitNL xs = [xs] := by
  induction xs with
  | nil => simp [splitNL]
  | cons b bs ih =>
    have hb : b ≠ NL := h b (List.mem_cons_self b bs)
    have hrest := ih (fun x hx => h x (List.mem_cons_of_mem b hx))
    simp [splitNL, hb, hrest]

theorem splitNL_append (xs ys : List Nat) :
    splitNL (xs ++ ys) =
      (splitNL xs).dropLast
        ++ ((splitNL xs).getLastD [] ++ (splitNL ys).headI) :: (splitNL ys).tail := by
  induction xs with
  | nil =>
    obtain ⟨q, qs, hQ⟩ := List.exists_cons_of_ne_nil (splitNL_ne_nil ys)
    simp [splitNL, hQ, List.getLastD]
  | cons b bs ih =>
    obtain ⟨q, qs, hP⟩ := List.exists_cons_of_ne_nil (splitNL_ne_nil bs)
    by_cases hb : b = NL
    · subst hb
      rw [List.cons_append, splitNL_cons_nl, splitNL_cons_nl, ih, hP]
      simp [List.getLastD_cons]
    · rw [List.cons_append, splitNL_cons_of_ne b _ hb, splitNL_cons_of_ne b _ hb, ih, hP]
      cases qs with
      | nil => simp [List.getLastD]
      | cons q' qs' =>
        simp [List.getLastD_cons]

theorem streamLines_eq (chunks : List (List Nat)) :
    ∀ buffer, (∀ b ∈ buffer, b ≠ NL) → (∀ c ∈ chunks, c ≠ []) →
      streamLines buffer chunks = (splitNL (buffer ++ chunks.flatten)).dropLast := by
  induction chunks with
  | nil =>
    intro buffer hbuf _
    rw [streamLines, List.flatten_nil, List.append_nil, splitNL_of_no_nl buffer hbuf]
    rfl
  | cons c cs ih =>
    intro buffer hbuf hne
    have hc : c ≠ [] := hne c (List.mem_cons_self c cs)
    have hlast : (splitNL (buffer ++ c)).getLastD [] ∈ splitNL (buffer ++ c) :=
      getLastD_mem _ _ (splitNL_ne_nil _)
    have hlast_no_nl : ∀ b ∈ (splitNL (buffer ++ c)).getLastD [], b ≠ NL := by
      intro b hb hbe
      exact splitNL_no_nl (buffer ++ c) _ hlast (hbe ▸ hb)
    rw [streamLines, if_neg hc]
    show (splitNL (buffer ++ c)).dropLast
        ++ streamLines ((splitNL (buffer ++ c)).getLastD []) cs = _
    rw [ih _ hlast_no_nl (fun x hx => hne x (List.mem_cons_of_mem c hx)),
      List.flatten_cons, ← List.append_assoc,
      splitNL_append (buffer ++ c) cs.flatten,
      splitNL_append ((splitNL (buffer ++ c)).getLastD []) cs.flatten,
      splitNL_of_no_nl _ hlast_no_nl]
    simp [List.dropLast_append_cons, List.getLastD]

/-- Interleaving the per-line processing with chunk reassembly (as the
code does) produces the same records as first recovering all lines and
then filtering each. -/
theorem runLoop_eq_filterMap (parse : List Nat → Option Post)
    (sf : String) (st : Int) (chunks : List (List Nat)) : ∀ buffer,
    runLoop parse sf st buffer chunks
      = (streamLines buffer chunks).filterMap (processLine parse sf st) := by
  induction chunks with
  | nil => intro buffer; rfl
  | cons c cs ih =>
    intro buffer
    by_cases hc : c = []
    · rw [runLoop, streamLines, if_pos hc, if_pos hc]
      rfl
    · rw [runLoop, streamLines, if_neg hc, if_neg hc]
      show (splitNL (buffer ++ c)).dropLast.filterMap (processLine parse sf st)
          ++ runLoop parse sf st ((splitNL (buffer ++ c)).getLastD []) cs
        = ((splitNL (buffer ++ c)).dropLast
            ++ streamLines ((splitNL (buffer ++ c)).getLastD []) cs).filterMap
            (processLine parse sf st)
      rw [List.filterMap_append, ih]

/-! ### Index bookkeeping for `filterMap` (output-order preservation) -/

theorem take_sublist_take {α : Type} (l : List α) :
    ∀ i j : Nat, i ≤ j → List.Sublist (l.take i) (l.take j) := by
  induction l with
  | nil => simp
  | cons a l ih =>
    intro i j hij
    cases i with
    | zero => simp
    | succ i' =>
      cases j with
      | zero => omega
      | succ j' =>
        simp only [List.take_succ_cons]
        exact (ih i' j' (by omega)).cons₂ a

theorem filterMap_getElem_idx {α β : Type} (f : α → Option β) (l : List α) :
    ∀ (i : Nat) (a : α) (b : β), l[i]? = some a → f a = some b →
      (l.filterMap f)[((l.take i).filterMap f).length]? = some b := by
  induction l with
  | nil => intro i a b h _; simp at h
  | cons x xs ih =>
    intro i a b h hf
    cases i with
    | zero =>
      simp only [List.getElem?_cons_zero, Option.some.injEq] at h
      subst h
      simp [List.filterMap_cons, hf]
    | succ n =>
      simp only [List.getElem?_cons_succ] at h
      rw [List.take_succ_cons]
      cases hfx : f x with
      | none =>
        simp only [List.filterMap_cons, hfx]
        exact ih n a b h hf
      | some c =>
        simp only [List.filterMap_cons, hfx, List.length_cons,
          List.getElem?_cons_succ]
        exact ih n a b h hf

theorem filterMap_take_len_mono {α β : Type} (f : α → Option β) (l : List α)
    (i j : Nat) (hij : i ≤ j) :
    ((l.take i).filterMap f).length ≤ ((l.take j).filterMap f).length :=
  ((take_sublist_take l i j hij).filterMap f).length_le

theorem filterMap_take_len_strict {α β : Type} (f : α → Option β) (l : List α)
    (i j : Nat) (a : α) (b : β) (hij : i < j) (ha : l[i]? = some a)
    (hb : f a = some b) :
    ((l.take i).filterMap f).length < ((l.take j).filterMap f).length := by
  have hsucc : (l.take (i + 1)).filterMap f = (l.take i).filterMap f ++ [b] := by
    rw [List.take_succ, List.filterMap_append, ha]
    simp [List.filterMap_cons, hb]
  have hlen : ((l.take (i + 1)).filterMap f).length
      = ((l.take i).filterMap f).length + 1 := by
    rw [hsucc, List.length_append, List.length_cons, List.length_nil]
  have := filterMap_take_len_mono f l (i + 1) j hij
  omega

/-! ### The claims -/

/-- C1: a line the JSON parser rejects is skipped silently: its
per-line result is `none` (no exception escapes, since only total
functions are involved), and inserting such a line anywhere between the
other lines leaves the records produced for those lines unchanged. -/
theorem c1_unparseable_line_skipped (parse : List Nat → Option Post)
    (sf : String) (st : Int) (bad : List Nat) (hbad : parse bad = none) :
    processLine parse sf st bad = none
    ∧ ∀ xs ys : List (List Nat),
        (xs ++ bad :: ys).filterMap (processLine parse sf st)
          = (xs ++ ys).filterMap (processLine parse sf st) := by
  have h1 : processLine parse sf st bad = none := by
    simp [processLine, hbad]
  refine ⟨h1, fun xs ys => ?_⟩
  rw [List.filterMap_append, List.filterMap_append, List.filterMap_cons, h1]

set_option maxRecDepth 20000 in
theorem c1_unparseable_line_skipped_witness :
    ([[97]] ++ [99] :: [[98]]).filterMap (processLine testParse "climbharder" 20)
      = ([[97]] ++ [[98]]).filterMap (processLine testParse "climbharder" 20) :=
  (c1_unparseable_line_skipped testParse "climbharder" 20 [99] (by decide)).2
    [[97]] [[98]]

/-- C2: every record the run emits comes from a line whose parsed post
passes all three inclusion predicates: `subreddit` present and equal to
the target, score (default 0) strictly above the threshold, and the
trimmed `body` field at least 120 characters long. -/
theorem c2_emitted_record_invariant (parse : List Nat → Option Post)
    (sf : String) (st : Int) (chunks : List (List Nat)) (r : OutputRecord)
    (hr : r ∈ runLoop parse sf st [] chunks) :
    ∃ line post, line ∈ streamLines [] chunks
      ∧ parse line = some post
      ∧ filterNormalize sf st post = some r
      ∧ post.subreddit = some sf
      ∧ st < post.score.getD 0
      ∧ 120 ≤ (pyStrip (post.body.getD "")).length := by
  rw [runLoop_eq_filterMap] at hr
  obtain ⟨line, hline, hproc⟩ := List.mem_filterMap.mp hr
  refine ⟨line, ?_⟩
  unfold processLine at hproc
  by_cases hb : lineIsBlank line
  · rw [if_pos hb] at hproc; cases hproc
  · rw [if_neg hb] at hproc
    cases hp : parse line with
    | none => rw [hp] at hproc; cases hproc
    | some post =>
      rw [hp] at hproc
      change filterNormalize sf st post = some r at hproc
      refine ⟨post, hline, rfl, hproc, ?_⟩
      unfold filterNormalize at hproc
      by_cases h1 : post.subreddit ≠ some sf
      · rw [if_pos h1] at hproc; cases hproc
      · rw [if_neg h1] at hproc
        by_cases h2 : post.score.getD 0 ≤ st
        · rw [if_pos h2] at hproc; cases hproc
        · rw [if_neg h2] at hproc
          by_cases h3 : (pyStrip (post.body.getD "")).length < 120
          · rw [if_pos h3] at hproc; cases hproc
          · exact ⟨not_not.mp h1, by omega, by omega⟩

set_option maxRecDepth 20000 in
theorem c2_emitted_record_invariant_witness :
    ∃ line post, line ∈ streamLines [] [[97, 10]]
      ∧ testParse line = some post
      ∧ filterNormalize "climbharder" 20 post = some ⟨goodBody⟩
      ∧ post.subreddit = some "climbharder"
      ∧ (20 : Int) < post.score.getD 0
      ∧ 120 ≤ (pyStrip (post.body.getD "")).length :=
  c2_emitted_record_invariant testParse "climbharder" 20 [[97, 10]]
    ⟨goodBody⟩ (by decide)

/-- C3: the length gate looks only at the trimmed `body` field: it is
invariant under any change to `title` and `selftext`; a post whose
trimmed `body` is shorter than 120 characters is always rejected (even
a submission with a long `selftext`), and a post passing the subreddit
and score predicates whose trimmed `body` reaches 120 characters is
always accepted (even a submission with a short title and selftext). -/
theorem c3_length_gate_on_body_field (sf : String) (st : Int) (post : Post)
    (t s : Option String) :
    ((filterNormalize sf st post).isSome
      ↔ (filterNormalize sf st { post with title := t, selftext := s }).isSome)
    ∧ ((pyStrip (post.body.getD "")).length < 120 →
        filterNormalize sf st post = none)
    ∧ (post.subreddit = some sf → st < post.score.getD 0 →
        120 ≤ (pyStrip (post.body.getD "")).length →
        (filterNormalize sf st post).isSome) := by
  refine ⟨?_, ?_, ?_⟩
  · unfold filterNormalize
    split_ifs <;> simp
  · intro hlen
    unfold filterNormalize
    by_cases h1 : post.subreddit ≠ some sf
    · rw [if_pos h1]
    · rw [if_neg h1]
      by_cases h2 : post.score.getD 0 ≤ st
      · rw [if_pos h2]
      · rw [if_neg h2, if_pos hlen]
  · intro hsub hscore hlen
    unfold filterNormalize
    rw [if_neg (fun hne => hne hsub), if_neg (by omega : ¬post.score.getD 0 ≤ st),
      if_neg (by omega : ¬(pyStrip (post.body.getD "")).length < 120)]
    simp

set_option maxRecDepth 20000 in
theorem c3_length_gate_on_body_field_witness :
    filterNormalize "climbharder" 20 shortBodySub = none
    ∧ (filterNormalize "climbharder" 20 subPost).isSome :=
  ⟨(c3_length_gate_on_body_field "climbharder" 20 shortBodySub none none).2.1
      (by decide),
   (c3_length_gate_on_body_field "climbharder" 20 subPost none none).2.2
      (by decide) (by decide) (by decide)⟩

/-- C4: an emitted record's `body` is the trimmed `title`, one space
and the trimmed `selftext` when the post has a `title` key, and the
trimmed `body` field otherwise; absent fields default to the empty
string. -/
theorem c4_output_body_construction (sf : String) (st : Int) (post : Post)
    (r : OutputRecord) (h : filterNormalize sf st post = some r) :
    r.body =
      if post.title.isSome then
        pyStrip (post.title.getD "") ++ " " ++ pyStrip (post.selftext.getD "")
      else
        pyStrip (post.body.getD "") := by
  unfold filterNormalize at h
  split_ifs at h
  cases h
  rfl

set_option maxRecDepth 20000 in
theorem c4_output_body_construction_witness :
    (⟨"T S"⟩ : OutputRecord).body =
      if subPost.title.isSome then
        pyStrip (subPost.title.getD "") ++ " " ++ pyStrip (subPost.selftext.getD "")
      else
        pyStrip (subPost.body.getD "") :=
  c4_output_body_construction "climbharder" 20 subPost ⟨"T S"⟩ (by decide)

/-- C5: for every decompressed byte stream and every partition of it
into non-empty read chunks, the decoder loop yields exactly the
newline-separated segments of the whole stream with the last segment
(the residual accumulator, the material after the final newline)
removed, in order — independent of where the chunk boundaries fall. -/
theorem c5_decoder_chunk_invariance (chunks : List (List Nat))
    (h : ∀ c ∈ chunks, c ≠ []) :
    streamLines [] chunks = (splitNL chunks.flatten).dropLast :=
  streamLines_eq chunks [] (by simp) h

theorem c5_decoder_chunk_invariance_witness :
    (∀ c ∈ [[97, 10, 98], [99, 10, 100]], c ≠ ([] : List Nat))
    ∧ streamLines [] [[97, 10, 98], [99, 10, 100]]
        = (splitNL ([[97, 10, 98], [99, 10, 100]] : List (List Nat)).flatten).dropLast :=
  ⟨by decide, c5_decoder_chunk_invariance [[97, 10, 98], [99, 10, 100]] (by decide)⟩

/-- C6: when the input path is not an existing file, the script prints
the error, leaves the output file exactly as it was (it is never
created or opened for writing), raises nothing, and the process exit
status is 0. -/
theorem c6_missing_input_soft_failure (parse : List Nat → Option Post)
    (isfile : String → Bool) (contents : String → List (List Nat))
    (corrupt : String → Bool) (outFiles : String → Option String)
    (prog inp out : String) (h : isfile inp = false) :
    mainScript parse isfile contents corrupt outFiles [prog, inp, out]
      = .ran { errorPrinted := true, finalOutput := outFiles out,
               streamError := false }
    ∧ (mainScript parse isfile contents corrupt outFiles [prog, inp, out]).exitCode
        = 0 := by
  constructor
  · simp [mainScript, process_pushshift_zst, h]
  · simp [mainScript, process_pushshift_zst, h, MainResult.exitCode]

theorem c6_missing_input_soft_failure_witness :
    mainScript testParse (fun _ => false) (fun _ => []) (fun _ => false)
        (fun _ => some "old") ["prog", "in.zst", "out.jsonl"]
      = .ran { errorPrinted := true, finalOutput := some "old",
               streamError := false }
    ∧ (mainScript testParse (fun _ => false) (fun _ => []) (fun _ => false)
        (fun _ => some "old") ["prog", "in.zst", "out.jsonl"]).exitCode = 0 :=
  c6_missing_input_soft_failure testParse (fun _ => false) (fun _ => [])
    (fun _ => false) (fun _ => some "old") "prog" "in.zst" "out.jsonl" rfl

/-- C7: the score predicate defaults an absent `score` to 0 and
requires strict greater-than: any post whose score (default 0) is at
most the threshold is rejected; a post with no `score` key is rejected
whenever the threshold is non-negative, and can pass when the threshold
is negative (and the other predicates hold). -/
theorem c7_score_default_strict (sf : String) (st : Int) (post : Post) :
    (post.score.getD 0 ≤ st → filterNormalize sf st post = none)
    ∧ (post.score = none → 0 ≤ st → filterNormalize sf st post = none)
    ∧ (post.score = none → st < 0 → post.subreddit = some sf →
        120 ≤ (pyStrip (post.body.getD "")).length →
        (filterNormalize sf st post).isSome) := by
  refine ⟨?_, ?_, ?_⟩
  · intro hle
    unfold filterNormalize
    by_cases h1 : post.subreddit ≠ some sf
    · rw [if_pos h1]
    · rw [if_neg h1, if_pos hle]
  · intro hnone hst
    unfold filterNormalize
    by_cases h1 : post.subreddit ≠ some sf
    · rw [if_pos h1]
    · rw [if_neg h1, if_pos (by rw [hnone]; exact hst)]
  · intro hnone hst hsub hlen
    unfold filterNormalize
    rw [if_neg (fun hne => hne hsub),
      if_neg (by rw [hnone]; simpa using hst),
      if_neg (by omega : ¬(pyStrip (post.body.getD "")).length < 120)]
    simp

set_option maxRecDepth 20000 in
theorem c7_score_default_strict_witness :
    filterNormalize "climbharder" 20 noScorePost = none
    ∧ (filterNormalize "climbharder" (-1) noScorePost).isSome :=
  ⟨(c7_score_default_strict "climbharder" 20 noScorePost).2.1 rfl (by decide),
   (c7_score_default_strict "climbharder" (-1) noScorePost).2.2 rfl (by decide)
     rfl (by decide)⟩

/-- C8: the pipeline is deterministic: two runs given the same input
file state, the same decompressed stream, and the same configuration
produce the same outcome — in particular byte-identical output-file
content. -/
theorem c8_deterministic (parse parse' : List Nat → Option Post)
    (inFile inFile' : Bool) (chunks chunks' : List (List Nat))
    (corrupt corrupt' : Bool) (prev prev' : Option String)
    (sf sf' : String) (st st' : Int)
    (h1 : parse = parse') (h2 : inFile = inFile') (h3 : chunks = chunks')
    (h4 : corrupt = corrupt') (h5 : prev = prev') (h6 : sf = sf')
    (h7 : st = st') :
    process_pushshift_zst parse inFile chunks corrupt prev sf st
      = process_pushshift_zst parse' inFile' chunks' corrupt' prev' sf' st'
    ∧ (process_pushshift_zst parse inFile chunks corrupt prev sf st).finalOutput
      = (process_pushshift_zst parse' inFile' chunks' corrupt' prev' sf' st').finalOutput := by
  subst h1 h2 h3 h4 h5 h6 h7
  exact ⟨rfl, rfl⟩

theorem c8_deterministic_witness :
    process_pushshift_zst testParse true [[97, 10]] false none "climbharder" 20
      = process_pushshift_zst testParse true [[97, 10]] false none "climbharder" 20
    ∧ (process_pushshift_zst testParse true [[97, 10]] false none "climbharder" 20).finalOutput
      = (process_pushshift_zst testParse true [[97, 10]] false none "climbharder" 20).finalOutput :=
  c8_deterministic testParse testParse true true [[97, 10]] [[97, 10]]
    false false none none "climbharder" "climbharder" 20 20
    rfl rfl rfl rfl rfl rfl rfl

/-- C9: the records written are exactly the filter-and-normalize map
over the recovered lines in stream order, and therefore two emitted
records appear in the output in the order of their originating lines:
the record of the earlier line sits at a strictly smaller output
index. -/
theorem c9_output_preserves_input_order (parse : List Nat → Option Post)
    (sf : String) (st : Int) (chunks : List (List Nat))
    (i j : Nat) (li lj : List Nat) (ri rj : OutputRecord)
    (hij : i < j)
    (hi : (streamLines [] chunks)[i]? = some li)
    (hj : (streamLines [] chunks)[j]? = some lj)
    (hri : processLine parse sf st li = some ri)
    (hrj : processLine parse sf st lj = some rj) :
    runLoop parse sf st [] chunks
      = (streamLines [] chunks).filterMap (processLine parse sf st)
    ∧ ∃ i' j' : Nat, i' < j'
        ∧ (runLoop parse sf st [] chunks)[i']? = some ri
        ∧ (runLoop parse sf st [] chunks)[j']? = some rj := by
  have heq := runLoop_eq_filterMap parse sf st chunks []
  refine ⟨heq,
    (((streamLines [] chunks).take i).filterMap (processLine parse sf st)).length,
    (((streamLines [] chunks).take j).filterMap (processLine parse sf st)).length,
    filterMap_take_len_strict _ _ i j li ri hij hi hri, ?_, ?_⟩
  · rw [heq]
    exact filterMap_getElem_idx _ _ i li ri hi hri
  · rw [heq]
    exact filterMap_getElem_idx _ _ j lj rj hj hrj

set_option maxRecDepth 20000 in
theorem c9_output_preserves_input_order_witness :
    runLoop testParse "climbharder" 20 [] [[97, 10], [98, 10]]
      = (streamLines [] [[97, 10], [98, 10]]).filterMap
          (processLine testParse "climbharder" 20)
    ∧ ∃ i' j' : Nat, i' < j'
        ∧ (runLoop testParse "climbharder" 20 [] [[97, 10], [98, 10]])[i']?
            = some ⟨goodBody⟩
        ∧ (runLoop testParse "climbharder" 20 [] [[97, 10], [98, 10]])[j']?
            = some ⟨"T S"⟩ :=
  c9_output_preserves_input_order testParse "climbharder" 20
    [[97, 10], [98, 10]] 0 1 [97] [98] ⟨goodBody⟩ ⟨"T S"⟩
    (by decide) (by decide) (by decide) (by decide) (by decide)

/-- C10: when the input file exists, the output file is opened with
mode `w` before any decompression: after the run its content is exactly
the serialized accepted records, whatever its prior content was and
whether or not the stream later turns out corrupt; a run accepting no
record leaves an (existing) empty output file. -/
theorem c10_output_truncated_upfront (parse : List Nat → Option Post)
    (chunks : List (List Nat)) (corrupt : Bool) (prev : Option String)
    (sf : String) (st : Int) :
    (process_pushshift_zst parse true chunks corrupt prev sf st).finalOutput
      = some (serializeOutput (runLoop parse sf st [] chunks))
    ∧ (runLoop parse sf st [] chunks = [] →
        (process_pushshift_zst parse true chunks corrupt prev sf st).finalOutput
          = some "") := by
  constructor
  · rfl
  · intro h
    show some (serializeOutput (runLoop parse sf st [] chunks)) = some ""
    rw [h]
    rfl

set_option maxRecDepth 20000 in
theorem c10_output_truncated_upfront_witness :
    (process_pushshift_zst testParse true [[99, 10]] true (some "old")
        "climbharder" 20).finalOutput = some "" :=
  (c10_output_truncated_upfront testParse [[99, 10]] true (some "old")
      "climbharder" 20).2 (by decide)

end PushshiftFilter
